import Mathlib

/-!
Verification development for the SubVoice relay server
(`src/index.js` main server + `src/api/voiceRoutes.js`).

The connection/session core is shallowly embedded below: the player
registry is an association list, transports are `(id, open?)` pairs,
message handling is a pure function from a parsed frame and the
connection/server state to the new states plus a list of observable
events (socket sends and log lines).  JavaScript truthiness on the
dynamic fields of inbound frames is modelled explicitly.

Files of the repository that are imported by the server but are not
present in the source tree (`core/playerManager.js`,
`security/rateLimit.js`, `webrtc/rtcServer.js`, `utils/teams.js`,
`utils/modes.js`) are modelled from the spec; each such definition
carries a doc comment saying so.  Everything else is translated from
the source.
-/

namespace SubVoice

/-- A 3D position `{x, y, z}`.  Coordinates are embedded as integers;
no claim performs arithmetic on them. -/
structure Pos where
  x : Int
  y : Int
  z : Int
deriving DecidableEq

/-- Modelled from the spec: `VoiceMode` from `src/core/types.js` is not
under `src/`; the spec gives the enum `{GLOBAL, TEAM}`.  The values are
embedded as strings because the JavaScript code passes them where raw
strings also flow (`POST /players/:id/mode`). -/
def VoiceMode.GLOBAL : String := "global"

/-- Modelled from the spec: the TEAM member of the voice-mode enum. -/
def VoiceMode.TEAM : String := "team"

/-- One player entry of the registry. -/
structure Player where
  name : String
  team : String
  voiceMode : String
  muted : Bool
  pos : Pos
deriving DecidableEq

/-- The player registry: an association list keyed by player id. -/
abbrev Registry := List (String × Player)

/-- Association-list lookup (the registry's `get`). -/
def findP : Registry → String → Option Player
  | [], _ => none
  | (i, p) :: rest, j => if i = j then some p else findP rest j

/-- Replace the entry for a key, or append a new one. -/
def setP : Registry → String → Player → Registry
  | [], j, q => [(j, q)]
  | (i, p) :: rest, j, q => if i = j then (j, q) :: rest else (i, p) :: setP rest j q

/-- A partial update: fields that are `none` keep their prior value. -/
structure Patch where
  name : Option String := none
  team : Option String := none
  voiceMode : Option String := none
  muted : Option Bool := none
  pos : Option Pos := none
deriving DecidableEq

/-- Modelled from the spec: the defaults `addOrUpdate` uses when the id
is absent (team `"none"`, voiceMode GLOBAL, muted false, origin). -/
def defaultPlayer : Player :=
  { name := "", team := "none", voiceMode := VoiceMode.GLOBAL, muted := false,
    pos := ⟨0, 0, 0⟩ }

/-- Field-wise merge of a patch into a player. -/
def applyPatch (p : Player) (u : Patch) : Player :=
  { name := u.name.getD p.name
    team := u.team.getD p.team
    voiceMode := u.voiceMode.getD p.voiceMode
    muted := u.muted.getD p.muted
    pos := u.pos.getD p.pos }

/-- Modelled from the spec: `playerManager.addOrUpdate` from
`src/core/playerManager.js` is not under `src/`.  Merges the patch into
the existing entry, or creates a new entry with the defaults. -/
def addOrUpdate (reg : Registry) (id : String) (u : Patch) : Registry :=
  setP reg id (applyPatch ((findP reg id).getD defaultPlayer) u)

/-- Modelled from the spec: `playerManager.setTeam`; tolerant no-op on
an unknown id. -/
def setTeam (reg : Registry) (id : String) (t : String) : Registry :=
  match findP reg id with
  | none => reg
  | some p => setP reg id { p with team := t }

/-- Modelled from the spec: `playerManager.setVoiceMode`; an
unrecognized mode value is not stored (the prior value is retained),
and an unknown id is a tolerant no-op. -/
def setVoiceMode (reg : Registry) (id : String) (m : String) : Registry :=
  if m = VoiceMode.GLOBAL ∨ m = VoiceMode.TEAM then
    match findP reg id with
    | none => reg
    | some p => setP reg id { p with voiceMode := m }
  else reg

/-- Modelled from the spec: `playerManager.setMuted`; tolerant no-op on
an unknown id. -/
def setMuted (reg : Registry) (id : String) (b : Bool) : Registry :=
  match findP reg id with
  | none => reg
  | some p => setP reg id { p with muted := b }

/-- Modelled from the spec: `playerManager.setPlayerPos`; tolerant
no-op on an unknown id. -/
def setPlayerPos (reg : Registry) (id : String) (q : Pos) : Registry :=
  match findP reg id with
  | none => reg
  | some p => setP reg id { p with pos := q }

/-- Modelled from the spec: `playerManager.remove`; idempotent delete. -/
def removeP (reg : Registry) (id : String) : Registry :=
  reg.filter (fun e => e.1 ≠ id)

/-- Modelled from the spec: `playerManager.getAll` returns a snapshot
of every player's state; in the pure embedding the snapshot is the
registry value itself. -/
def getAll (reg : Registry) : Registry := reg

/-- Lookup by a possibly-undefined id (a JavaScript call such as
`canListen(undefined, id)` looks up `undefined` and finds nothing). -/
def lookupId (reg : Registry) : Option String → Option Player
  | some i => findP reg i
  | none => none

/-- Modelled from the spec: `playerManager.canListen(listener, speaker)`
from `src/core/playerManager.js` is not under `src/`.  Spec §4.2:
unknown speaker → false; muted speaker → false; GLOBAL → true;
TEAM → true iff the listener is known, shares the speaker's team, and
that team is not the `"none"` sentinel; otherwise false. -/
def canListen (reg : Registry) (listener speaker : Option String) : Bool :=
  match lookupId reg speaker with
  | none => false
  | some sp =>
    if sp.muted then false
    else if sp.voiceMode = VoiceMode.GLOBAL then true
    else if sp.voiceMode = VoiceMode.TEAM then
      match lookupId reg listener with
      | none => false
      | some li => li.team = sp.team ∧ sp.team ≠ "none"
    else false

/-- `canRouteVoice(from, to)` from the main server: delegates to
`canListen` with listener = `to` and speaker = `from`. -/
def canRouteVoice (reg : Registry) (sender target : Option String) : Bool :=
  canListen reg target sender

/-- Rate-limiter configuration (`limit`, `windowMs`). -/
structure RLConfig where
  limit : Nat
  windowMs : Nat
deriving DecidableEq

/-- Rate-limiter window record `{windowStart, count}`. -/
structure RLState where
  windowStart : Nat
  count : Nat
deriving DecidableEq

/-- Modelled from the spec: `createRateLimiter` from
`src/security/rateLimit.js` is not under `src/`.  Spec §4.3
(fixed-window counter): if the current time has advanced past
`windowStart + windowMs`, reset the window; increment the count; allow
iff `count ≤ limit`.  A rejected call still increments the count. -/
def rlAllow (cfg : RLConfig) (now : Nat) (st : RLState) : Bool × RLState :=
  let st1 := if st.windowStart + cfg.windowMs < now then RLState.mk now 0 else st
  let st2 := RLState.mk st1.windowStart (st1.count + 1)
  (decide (st2.count ≤ cfg.limit), st2)

/-- The configuration of the per-connection `signalLimiter`
(`createRateLimiter({limit: 50, windowMs: 10_000})`). -/
def signalCfg : RLConfig := ⟨50, 10000⟩

/-- The final limiter state after a sequence of calls at the given
times. -/
def rlRun (cfg : RLConfig) (ts : List Nat) (st : RLState) : RLState :=
  match ts with
  | [] => st
  | t :: rest => rlRun cfg rest (rlAllow cfg t st).2

/-- The list of allow/deny answers over a sequence of calls at the
given times. -/
def rlResults (cfg : RLConfig) (ts : List Nat) (st : RLState) : List Bool :=
  match ts with
  | [] => []
  | t :: rest => (rlAllow cfg t st).1 :: rlResults cfg rest (rlAllow cfg t st).2

/-- The voice-state bundle carried by handshake and `state` frames
(spec §6: mode / team / mute). -/
structure StateBundle where
  mode : Option String := none
  teamColor : Option String := none
  mute : Option Bool := none
deriving DecidableEq

/-- A dynamic JSON-ish value appearing in a frame field. -/
inductive DVal
  | bool : Bool → DVal
  | str : String → DVal
  | bundle : StateBundle → DVal
  | posv : Pos → DVal
deriving DecidableEq

/-- JavaScript truthiness of a dynamic value. -/
def DVal.truthy : DVal → Bool
  | .bool b => b
  | .str s => s ≠ ""
  | .bundle _ => true
  | .posv _ => true

/-- Truthiness of a possibly-absent dynamic value (`undefined` is
falsy). -/
def truthyD : Option DVal → Bool
  | none => false
  | some v => v.truthy

/-- Truthiness of a possibly-absent string field. -/
def truthyS : Option String → Bool
  | none => false
  | some s => s ≠ ""

/-- JavaScript `a || b` on dynamic values. -/
def jsOr (a b : Option DVal) : Option DVal :=
  if truthyD a then a else b

/-- JavaScript `a ?? b` (nullish coalescing) on dynamic values. -/
def nullish (a b : Option DVal) : Option DVal :=
  match a with
  | some v => some v
  | none => b

/-- Coerce a dynamic value to a state bundle (a non-object behaves as
an object with no recognized fields). -/
def asBundle : Option DVal → StateBundle
  | some (.bundle s) => s
  | _ => {}

/-- Coerce a dynamic value to a position. -/
def asPos : Option DVal → Pos
  | some (.posv p) => p
  | _ => ⟨0, 0, 0⟩

/-- `typeof v === "string"`. -/
def isStrD : Option DVal → Bool
  | some (.str _) => true
  | _ => false

/-- The string payload of a dynamic value. -/
def asStr : Option DVal → String
  | some (.str s) => s
  | _ => ""

/-- JavaScript `String.prototype.trim()`: strip leading and trailing
whitespace. -/
def jsTrim (s : String) : String :=
  String.mk (((s.data.dropWhile Char.isWhitespace).reverse.dropWhile
    Char.isWhitespace).reverse)

/-- JavaScript `String.prototype.slice(0, n)`. -/
def jsSlice (n : Nat) (s : String) : String :=
  String.mk (s.data.take n)

/-- Render a possibly-undefined string the way a JavaScript template
literal would. -/
def optStr : Option String → String
  | some s => s
  | none => "undefined"

/-- Modelled from the spec: `normalizeTeamColor` from
`src/utils/teams.js` is not under `src/`.  Spec §3 / glossary: every
input is normalized to a member of a fixed canonical set of color
tokens, unknown or absent input maps to the `"none"` sentinel. -/
def normalizeTeamColor (c : Option String) : String :=
  match c with
  | some s =>
    if s ∈ ["red", "blue", "green", "yellow", "purple", "orange"] then s
    else "none"
  | none => "none"

/-- Modelled from the spec: `modeFromState` from `src/utils/modes.js`
is not under `src/`.  The spec says the state bundle carries a mode
field and that unrecognized mode input must leave the stored mode
unchanged; we read the bundle's mode field, yielding an unrecognized
token when it is absent (which `setVoiceMode` then ignores). -/
def modeFromState (st : StateBundle) : String :=
  st.mode.getD ""

/-- A parsed inbound frame: one optional slot per field the dispatch
code reads.  An absent slot is JavaScript `undefined`. -/
structure Msg where
  type : Option String := none
  clientId : Option String := none
  player : Option String := none
  data : Option DVal := none
  state : Option DVal := none
  name : Option DVal := none
  enabled : Option DVal := none
  color : Option String := none
  pos : Option DVal := none
  toId : Option String := none
  action : Option String := none
  payload : Option DVal := none
deriving DecidableEq

/-- An outbound frame. -/
inductive OutMsg
  | players : Registry → OutMsg
  | room : Option String → String → OutMsg
  | ping : Nat → OutMsg
  | pong : Nat → OutMsg
  | teamv : Option DVal → OutMsg
  | signal : String → Option String → Option DVal → OutMsg
deriving DecidableEq

/-- An observable effect of a handler: a send through a client binding
(`clientsById`), a send on this connection's own socket, or a log
line. -/
inductive Ev
  | send : String → OutMsg → Ev
  | sendSelf : OutMsg → Ev
  | warn : String → Ev
  | info : String → Ev
deriving DecidableEq

/-- The transport map `clientsById`: id paired with whether that
socket's `readyState` is OPEN. -/
abbrev Clients := List (String × Bool)

/-- `clientsById.set`. -/
def clientsSet : Clients → String → Bool → Clients
  | [], j, b => [(j, b)]
  | (i, o) :: rest, j, b =>
    if i = j then (j, b) :: rest else (i, o) :: clientsSet rest j b

/-- `clientsById.get` by a possibly-undefined id. -/
def clientsGet (cs : Clients) : Option String → Option Bool
  | some j =>
    match cs with
    | [] => none
    | (i, o) :: rest => if i = j then some o else clientsGet rest (some j)
  | none => none

/-- `clientsById.delete`. -/
def clientsDel (cs : Clients) (id : String) : Clients :=
  cs.filter (fun e => e.1 ≠ id)

/-- Per-connection mutable state: the `id` / `isWebClient` closure
variables, whether the heartbeat interval is running, and the
connection's own `signalLimiter` window. -/
structure Conn where
  id : Option String := none
  isWebClient : Bool := false
  pingOn : Bool := false
  rl : RLState := ⟨0, 0⟩
deriving DecidableEq

/-- Shared server state: the player registry and the transport map. -/
structure Server where
  registry : Registry := []
  clients : Clients := []
deriving DecidableEq

/-- `broadcastPlayerUpdate` from the main server: send the full
snapshot to every binding whose socket is OPEN; non-open sockets are
skipped silently. -/
def broadcastPlayerUpdate (reg : Registry) (cs : Clients) : List Ev :=
  (cs.filter (fun c => c.2)).map
    (fun c => Ev.send c.1 (OutMsg.players (getAll reg)))

/-- Modelled from the spec: `forwardSignal` from
`src/webrtc/rtcServer.js` is not under `src/`.  Spec §4.5 steps 3–4:
look the target up in the hub; if absent, drop and emit the diagnostic
the caller supplied with reason "target not connected"; otherwise
forward the envelope `{type: "signal", from, action, payload}` to the
target's transport. -/
def forwardSignal (cs : Clients) (sender : String) (toId : Option String)
    (action : Option String) (payload : Option DVal) : List Ev :=
  match clientsGet cs toId with
  | none =>
    [Ev.warn ("No se pudo rutear " ++ sender ++ " -> " ++ optStr toId ++
      " (target not connected)")]
  | some _ => [Ev.send (optStr toId) (OutMsg.signal sender action payload)]

/-- The patch `registerClient` passes to `addOrUpdate`: every field
explicit, with the `defaults` object able to override the name. -/
def registerPatch (newId : String) (dName : Option String) : Patch :=
  { name := some (dName.getD newId)
    team := some "none"
    voiceMode := some VoiceMode.GLOBAL
    muted := some false
    pos := some ⟨0, 0, 0⟩ }

/-- `registerClient` from the connection handler: bind the id to this
socket in `clientsById` and create/overwrite the registry entry. -/
def registerClient (c : Conn) (s : Server) (selfOpen : Bool)
    (newId : String) (dName : Option String) : Conn × Server :=
  ({ c with id := some newId },
   { registry := addOrUpdate s.registry newId (registerPatch newId dName)
     clients := clientsSet s.clients newId selfOpen })

/-- `applyVoiceState` from the connection handler: set the mode derived
from the bundle, then the team color if truthy, then the mute flag if
boolean. -/
def applyVoiceState (s : Server) (id : String) (st : StateBundle) : Server :=
  let reg1 := setVoiceMode s.registry id (modeFromState st)
  let reg2 :=
    match st.teamColor with
    | some tc => if tc ≠ "" then setTeam reg1 id (normalizeTeamColor (some tc)) else reg1
    | none => reg1
  let reg3 :=
    match st.mute with
    | some b => setMuted reg2 id b
    | none => reg2
  { s with registry := reg3 }

/-- The `ws.on("message")` handler.  `roomId` is the server's
`ROOM_ID`, `now` the current time (`Date.now()` and the limiter
clock), `selfOpen` whether this connection's own socket is OPEN, and
`raw` the parse result of the frame (`none` = unparseable JSON, which
returns without effect).  Mirrors the source's control flow: web
handshake (early return), game handshake (falls through), the
unregistered guard, then the sequential typed branches. -/
def handleMessage (roomId : String) (now : Nat) (selfOpen : Bool)
    (raw : Option Msg) (c : Conn) (s : Server) : Conn × Server × List Ev :=
  match raw with
  | none => (c, s, [])
  | some m =>
    if c.id = none ∧ m.type = some "hello_web" ∧ truthyS m.clientId then
      let c1 : Conn := { c with isWebClient := true }
      let cs2 := registerClient c1 s selfOpen (optStr m.clientId) none
      let evs :=
        Ev.sendSelf (OutMsg.room cs2.1.id roomId) ::
          broadcastPlayerUpdate cs2.2.registry cs2.2.clients ++
            [Ev.info ("Conectado web: " ++ optStr cs2.1.id)]
      ({ cs2.1 with pingOn := true }, cs2.2, evs)
    else
      let step1 : Conn × Server × List Ev :=
        if c.id = none ∧ truthyS m.player then
          let cs2 := registerClient c s selfOpen ("mc:" ++ optStr m.player) m.player
          let s3 := applyVoiceState cs2.2 (optStr cs2.1.id) (asBundle (jsOr m.data m.state))
          (cs2.1, s3,
            broadcastPlayerUpdate s3.registry s3.clients ++
              [Ev.info ("Conectado BP: " ++ optStr cs2.1.id)])
        else (c, s, [])
      let c1 := step1.1
      let s1 := step1.2.1
      let evs1 := step1.2.2
      match c1.id with
      | none => (c1, s1, evs1)
      | some myId =>
        let st2 : Server × List Ev :=
          if m.type = some "state" then
            let sv := applyVoiceState s1 myId (asBundle (jsOr m.data none))
            (sv, broadcastPlayerUpdate sv.registry sv.clients)
          else (s1, [])
        let st3 : Server × List Ev :=
          if m.type = some "mic" then
            let sv : Server :=
              { st2.1 with registry := setMuted st2.1.registry myId (!truthyD m.state) }
            (sv, broadcastPlayerUpdate sv.registry sv.clients)
          else (st2.1, [])
        let evs4 : List Ev :=
          if m.type = some "ping" then [Ev.sendSelf (OutMsg.pong now)] else []
        let st5 : Server × List Ev :=
          if m.type = some "set_name" ∧ isStrD m.name then
            let nm := jsSlice 24 (jsTrim (asStr m.name))
            let reg2 := addOrUpdate st3.1.registry myId { name := some nm }
            let sv : Server := { st3.1 with registry := reg2 }
            (sv, broadcastPlayerUpdate sv.registry sv.clients)
          else (st3.1, [])
        let st6 : Server × List Ev :=
          if m.type = some "teamv" then
            let enabled := nullish m.enabled m.data
            let md := if truthyD enabled then VoiceMode.TEAM else VoiceMode.GLOBAL
            let sv : Server := { st5.1 with registry := setVoiceMode st5.1.registry myId md }
            let echo : List Ev :=
              if c1.isWebClient then [Ev.sendSelf (OutMsg.teamv enabled)] else []
            (sv, echo ++ broadcastPlayerUpdate sv.registry sv.clients)
          else (st5.1, [])
        let st7 : Server × List Ev :=
          if m.type = some "team" then
            let reg2 := setTeam st6.1.registry myId (normalizeTeamColor m.color)
            let sv : Server := { st6.1 with registry := reg2 }
            (sv, broadcastPlayerUpdate sv.registry sv.clients)
          else (st6.1, [])
        let st8 : Server :=
          if m.type = some "pos" then
            let reg2 := setPlayerPos st7.1.registry myId (asPos (jsOr m.pos m.data))
            { st7.1 with registry := reg2 }
          else st7.1
        let st9 : Conn × List Ev :=
          if m.type = some "signal" then
            let res := rlAllow signalCfg now c1.rl
            let c2 : Conn := { c1 with rl := res.2 }
            if !res.1 then
              (c2, [Ev.warn ("Rate limit signal de " ++ myId)])
            else if !canRouteVoice st8.registry (some myId) m.toId then
              (c2, [Ev.warn ("Bloqueado " ++ myId ++ " -> " ++ optStr m.toId)])
            else
              (c2, forwardSignal st8.clients myId m.toId m.action m.payload)
          else (c1, [])
        (st9.1, st8,
          evs1 ++ st2.2 ++ st3.2 ++ evs4 ++ st5.2 ++ st6.2 ++ st7.2 ++ st9.2)

/-- The `ws.on("close")` handler: stop the heartbeat interval, and if
the connection was registered, remove its registry entry, delete its
transport binding, and broadcast the shrunken snapshot. -/
def handleClose (c : Conn) (s : Server) : Conn × Server × List Ev :=
  let c1 : Conn := { c with pingOn := false }
  match c.id with
  | none => (c1, s, [])
  | some i =>
    let s2 : Server :=
      { registry := removeP s.registry i, clients := clientsDel s.clients i }
    (c1, s2,
      Ev.info ("Desconectado: " ++ i) ::
        broadcastPlayerUpdate s2.registry s2.clients)

/-- An administrative API response body: `{ok: true}` or
`{error: msg}`. -/
inductive ApiResp
  | ok : ApiResp
  | err : String → ApiResp
deriving DecidableEq

/-- `POST /api/voice/players/:id/name` from `voiceRoutes.js`: 400 when
`name` or `id` is falsy, else trim, truncate to 24 and store. -/
def postName (reg : Registry) (id : String) (name : Option String) :
    Registry × Nat × ApiResp :=
  if ¬truthyS name ∨ id = "" then (reg, 400, .err "id y name requeridos")
  else
    (addOrUpdate reg id { name := some (jsSlice 24 (jsTrim (optStr name))) },
      200, .ok)

/-- `POST /api/voice/players/:id/team` from `voiceRoutes.js`: 400 when
`team` or `id` is falsy, else normalize and store the team color. -/
def postTeam (reg : Registry) (id : String) (team : Option String) :
    Registry × Nat × ApiResp :=
  if ¬truthyS team ∨ id = "" then (reg, 400, .err "id y team requeridos")
  else (setTeam reg id (normalizeTeamColor team), 200, .ok)

/-- `POST /api/voice/players/:id/mode` from `voiceRoutes.js`: 400 when
`mode` or `id` is falsy, else store the mode (the registry setter
itself rejects unrecognized modes). -/
def postMode (reg : Registry) (id : String) (mode : Option String) :
    Registry × Nat × ApiResp :=
  if ¬truthyS mode ∨ id = "" then (reg, 400, .err "id y mode requeridos")
  else (setVoiceMode reg id (optStr mode), 200, .ok)

/-! ## Helper lemmas -/

theorem findP_setP_self (reg : Registry) (i : String) (p : Player) :
    findP (setP reg i p) i = some p := by
  induction reg with
  | nil => simp [setP, findP]
  | cons e rest ih =>
    obtain ⟨a, q⟩ := e
    by_cases h : a = i
    · simp [setP, findP, h]
    · simp [setP, findP, h, ih]

theorem findP_removeP_self (reg : Registry) (i : String) :
    findP (removeP reg i) i = none := by
  induction reg with
  | nil => rfl
  | cons e rest ih =>
    obtain ⟨a, q⟩ := e
    by_cases h : a = i
    · simpa [removeP, List.filter_cons, h] using ih
    · simpa [removeP, List.filter_cons, findP, h] using ih

theorem findP_removeP_ne (reg : Registry) (i j : String) (h : j ≠ i) :
    findP (removeP reg i) j = findP reg j := by
  have hij : i ≠ j := fun hc => h hc.symm
  induction reg with
  | nil => rfl
  | cons e rest ih =>
    obtain ⟨a, q⟩ := e
    by_cases ha : a = i
    · simpa [removeP, List.filter_cons, findP, ha, hij] using ih
    · by_cases hb : a = j
      · simp [removeP, List.filter_cons, findP, ha, hb, h]
      · simpa [removeP, List.filter_cons, findP, ha, hb] using ih

theorem clientsGet_del_self (cs : Clients) (i : String) :
    clientsGet (clientsDel cs i) (some i) = none := by
  induction cs with
  | nil => rfl
  | cons e rest ih =>
    obtain ⟨a, b⟩ := e
    by_cases h : a = i
    · simpa [clientsDel, List.filter_cons, h] using ih
    · simpa [clientsDel, List.filter_cons, clientsGet, h] using ih

theorem clientsGet_del_ne (cs : Clients) (i j : String) (h : j ≠ i) :
    clientsGet (clientsDel cs i) (some j) = clientsGet cs (some j) := by
  have hij : i ≠ j := fun hc => h hc.symm
  induction cs with
  | nil => rfl
  | cons e rest ih =>
    obtain ⟨a, b⟩ := e
    by_cases ha : a = i
    · simpa [clientsDel, List.filter_cons, clientsGet, ha, hij] using ih
    · by_cases hb : a = j
      · simp [clientsDel, List.filter_cons, clientsGet, ha, hb, h]
      · simpa [clientsDel, List.filter_cons, clientsGet, ha, hb] using ih

theorem mem_broadcastPlayerUpdate (reg : Registry) (cs : Clients)
    (i : String) (msg : OutMsg) :
    Ev.send i msg ∈ broadcastPlayerUpdate reg cs ↔
      ((i, true) ∈ cs ∧ msg = OutMsg.players (getAll reg)) := by
  unfold broadcastPlayerUpdate
  constructor
  · intro h
    rcases List.mem_map.mp h with ⟨⟨a, b⟩, hmem, heq⟩
    rcases List.mem_filter.mp hmem with ⟨hcs, hb⟩
    injection heq with h1 h2
    subst h1
    simp only at hb
    subst hb
    exact ⟨hcs, h2.symm⟩
  · rintro ⟨hmem, rfl⟩
    exact List.mem_map.mpr ⟨(i, true), List.mem_filter.mpr ⟨hmem, rfl⟩, rfl⟩

theorem rlAllow_inWindow (cfg : RLConfig) (now t0 c : Nat)
    (h : now ≤ t0 + cfg.windowMs) :
    rlAllow cfg now ⟨t0, c⟩ = (decide (c + 1 ≤ cfg.limit), ⟨t0, c + 1⟩) := by
  have hnc : ¬ (t0 + cfg.windowMs < now) := by omega
  simp [rlAllow, hnc]

theorem rlAllow_reset (cfg : RLConfig) (now t0 c : Nat)
    (h : t0 + cfg.windowMs < now) :
    rlAllow cfg now ⟨t0, c⟩ = (decide (1 ≤ cfg.limit), ⟨now, 1⟩) := by
  simp [rlAllow, h]

theorem rlRun_inWindow (cfg : RLConfig) (t0 : Nat) :
    ∀ (ts : List Nat) (c : Nat), (∀ t ∈ ts, t ≤ t0 + cfg.windowMs) →
      rlRun cfg ts ⟨t0, c⟩ = ⟨t0, c + ts.length⟩ := by
  intro ts
  induction ts with
  | nil => intro c _; simp [rlRun]
  | cons t rest ih =>
    intro c h
    have ht : t ≤ t0 + cfg.windowMs := h t (by simp)
    have hrest : ∀ u ∈ rest, u ≤ t0 + cfg.windowMs := by
      intro u hu
      exact h u (by simp [hu])
    rw [rlRun, rlAllow_inWindow cfg t t0 c ht, ih (c + 1) hrest]
    have harith : c + 1 + rest.length = c + (t :: rest).length := by
      simp [List.length_cons]
      omega
    rw [harith]

theorem rlResults_inWindow (cfg : RLConfig) (t0 : Nat) :
    ∀ (ts : List Nat) (c : Nat), (∀ t ∈ ts, t ≤ t0 + cfg.windowMs) →
      rlResults cfg ts ⟨t0, c⟩
        = (List.range ts.length).map (fun i => decide (c + i + 1 ≤ cfg.limit)) := by
  intro ts
  induction ts with
  | nil => intro c _; simp [rlResults]
  | cons t rest ih =>
    intro c h
    have ht : t ≤ t0 + cfg.windowMs := h t (by simp)
    have hrest : ∀ u ∈ rest, u ≤ t0 + cfg.windowMs := by
      intro u hu
      exact h u (by simp [hu])
    rw [rlResults, rlAllow_inWindow cfg t t0 c ht, ih (c + 1) hrest]
    rw [List.length_cons, List.range_succ_eq_map]
    simp only [List.map_cons, List.map_map, Function.comp]
    refine congrArg₂ List.cons (by simp) ?_
    refine List.map_congr_left ?_
    intro i _
    have harith : c + 1 + i + 1 = c + (i + 1) + 1 := by omega
    simp [Function.comp, Nat.succ_eq_add_one, harith]

theorem getD_map_range (f : Nat → Bool) (n i : Nat) (d : Bool) (h : i < n) :
    ((List.range n).map f).getD i d = f i := by
  rw [List.getD_eq_getElem?_getD, List.getElem?_map, List.getElem?_range h]
  rfl

/-! ## Claims -/

/-- C1: the access-control decision `canListen(listener, speaker)` is
false whenever the speaker is muted, regardless of modes and teams; it
is true for every listener when the speaker's voiceMode is GLOBAL and
the speaker is not muted; when the speaker's voiceMode is TEAM it is
true iff the listener is in the registry with the speaker's team and
that team is not the `"none"` sentinel; and the relay's
`canRouteVoice(from, to)` consults it with listener = `to` and
speaker = `from`. -/
theorem claim1_canListen_policy (reg : Registry) (l s : String) (sp : Player)
    (hs : findP reg s = some sp) :
    (sp.muted = true → canListen reg (some l) (some s) = false)
    ∧ (sp.muted = false → sp.voiceMode = VoiceMode.GLOBAL →
        canListen reg (some l) (some s) = true)
    ∧ (sp.muted = false → sp.voiceMode = VoiceMode.TEAM →
        (canListen reg (some l) (some s) = true ↔
          ∃ lp, findP reg l = some lp ∧ lp.team = sp.team ∧ sp.team ≠ "none"))
    ∧ (∀ sender target, canRouteVoice reg sender target = canListen reg target sender) := by
  refine ⟨?_, ?_, ?_, fun _ _ => rfl⟩
  · intro hm
    simp [canListen, lookupId, hs, hm]
  · intro hm hg
    simp [canListen, lookupId, hs, hm, hg]
  · intro hm ht
    simp only [canListen, lookupId, hs, hm, ht]
    have hne : ¬ (VoiceMode.TEAM = VoiceMode.GLOBAL) := by decide
    simp only [hne, if_false, if_true, Bool.false_eq_true, if_neg hne]
    cases hl : findP reg l with
    | none => simp [hl]
    | some lp => simp [hl]

/-- Concrete registry used by the C1 witness. -/
def w1reg : Registry :=
  [("alice", ⟨"alice", "red", VoiceMode.TEAM, false, ⟨0, 0, 0⟩⟩),
   ("bob", ⟨"bob", "red", VoiceMode.GLOBAL, false, ⟨0, 0, 0⟩⟩)]

/-- Concrete speaker entry used by the C1 witness. -/
def w1bob : Player := ⟨"bob", "red", VoiceMode.GLOBAL, false, ⟨0, 0, 0⟩⟩

/-- Witness for C1 at a concrete registry. -/
theorem claim1_canListen_policy_witness :
    findP w1reg "bob" = some w1bob
    ∧ (w1bob.muted = false → w1bob.voiceMode = VoiceMode.GLOBAL →
        canListen w1reg (some "alice") (some "bob") = true) :=
  ⟨by decide, (claim1_canListen_policy w1reg "alice" "bob" w1bob (by decide)).2.1⟩

/-- C3: the fixed-window rate limiter, for any `limit`/`windowMs`
configuration: within one window the i-th call answers `count ≤ limit`
(so the first `limit` calls are allowed and the `(limit+1)`-th is
rejected), a rejected call still increments the count, and once the
current time passes `windowStart + windowMs` the window resets and the
next call is allowed again; the connection handler's `signalLimiter`
uses the defaults `limit = 50`, `windowMs = 10000`. -/
theorem claim3_rateLimiter_window (cfg : RLConfig) (t0 : Nat) (ts : List Nat)
    (hwin : ∀ t ∈ ts, t ≤ t0 + cfg.windowMs) :
    rlResults cfg ts ⟨t0, 0⟩
        = (List.range ts.length).map (fun i => decide (i + 1 ≤ cfg.limit))
    ∧ (rlRun cfg ts ⟨t0, 0⟩).count = ts.length
    ∧ (∀ i, i < ts.length → i < cfg.limit →
        (rlResults cfg ts ⟨t0, 0⟩).getD i false = true)
    ∧ (cfg.limit < ts.length →
        (rlResults cfg ts ⟨t0, 0⟩).getD cfg.limit true = false)
    ∧ (∀ t2, t0 + cfg.windowMs < t2 → 1 ≤ cfg.limit →
        (rlAllow cfg t2 (rlRun cfg ts ⟨t0, 0⟩)).1 = true
        ∧ (rlAllow cfg t2 (rlRun cfg ts ⟨t0, 0⟩)).2 = ⟨t2, 1⟩)
    ∧ signalCfg.limit = 50 ∧ signalCfg.windowMs = 10000 := by
  have hres := rlResults_inWindow cfg t0 ts 0 hwin
  have hrun := rlRun_inWindow cfg t0 ts 0 hwin
  simp only [Nat.zero_add] at hres hrun
  refine ⟨hres, by rw [hrun], ?_, ?_, ?_, rfl, rfl⟩
  · intro i hi hlim
    rw [hres, getD_map_range _ _ _ _ hi]
    simpa using hlim
  · intro hlt
    rw [hres, getD_map_range _ _ _ _ hlt]
    simp
  · intro t2 h2 hlim
    rw [hrun, rlAllow_reset cfg t2 t0 ts.length h2]
    exact ⟨by simpa using hlim, rfl⟩

/-- Witness for C3: 51 calls at time 0 against the handler's default
configuration; the 51st answer is `false`. -/
theorem claim3_rateLimiter_window_witness :
    (∀ t ∈ List.replicate 51 0, t ≤ 0 + signalCfg.windowMs)
    ∧ (signalCfg.limit < (List.replicate 51 0).length →
        (rlResults signalCfg (List.replicate 51 0) ⟨0, 0⟩).getD signalCfg.limit true
          = false) :=
  ⟨by decide,
    (claim3_rateLimiter_window signalCfg 0 (List.replicate 51 0) (by decide)).2.2.2.1⟩

/-- C2: for an inbound `signal` frame from a registered sender the
handler consults the sender's rate limiter first, then the
access-control policy, then target connectivity, and any failure drops
the message with only a local diagnostic — no send to the sender or
the target, registry and transport map untouched.  The rate-limited
outcome does not depend on the access-control answer (the first
conjunct holds with no hypothesis about it); when all three checks
pass the envelope goes to the target only. -/
theorem claim2_signal_checks (roomId : String) (now : Nat) (selfOpen : Bool)
    (m : Msg) (c : Conn) (s : Server) (myId : String)
    (hid : c.id = some myId) (hty : m.type = some "signal") :
    ((rlAllow signalCfg now c.rl).1 = false →
      handleMessage roomId now selfOpen (some m) c s
        = ({ c with rl := (rlAllow signalCfg now c.rl).2 }, s,
            [Ev.warn ("Rate limit signal de " ++ myId)]))
    ∧ ((rlAllow signalCfg now c.rl).1 = true →
       canRouteVoice s.registry (some myId) m.toId = false →
        handleMessage roomId now selfOpen (some m) c s
          = ({ c with rl := (rlAllow signalCfg now c.rl).2 }, s,
              [Ev.warn ("Bloqueado " ++ myId ++ " -> " ++ optStr m.toId)]))
    ∧ ((rlAllow signalCfg now c.rl).1 = true →
       canRouteVoice s.registry (some myId) m.toId = true →
       clientsGet s.clients m.toId = none →
        handleMessage roomId now selfOpen (some m) c s
          = ({ c with rl := (rlAllow signalCfg now c.rl).2 }, s,
              [Ev.warn ("No se pudo rutear " ++ myId ++ " -> " ++ optStr m.toId ++
                " (target not connected)")]))
    ∧ (∀ b, (rlAllow signalCfg now c.rl).1 = true →
       canRouteVoice s.registry (some myId) m.toId = true →
       clientsGet s.clients m.toId = some b →
        handleMessage roomId now selfOpen (some m) c s
          = ({ c with rl := (rlAllow signalCfg now c.rl).2 }, s,
              [Ev.send (optStr m.toId) (OutMsg.signal myId m.action m.payload)])) := by
  refine ⟨fun h1 => ?_, fun h1 h2 => ?_, fun h1 h2 h3 => ?_, fun b h1 h2 h3 => ?_⟩
  · simp [handleMessage, hid, hty, h1]
  · simp [handleMessage, forwardSignal, hid, hty, h1, h2]
  · simp [handleMessage, forwardSignal, hid, hty, h1, h2, h3]
  · simp [handleMessage, forwardSignal, hid, hty, h1, h2, h3]

/-- Connection state used by the C2 witness: its window already holds
50 counted calls. -/
def w2conn : Conn := { id := some "p1", rl := ⟨0, 50⟩ }

/-- Frame used by the C2 witness. -/
def w2msg : Msg := { type := some "signal", toId := some "p2" }

/-- Witness for C2: the 51st call inside the window is dropped with
only the rate-limit diagnostic. -/
theorem claim2_signal_checks_witness :
    w2conn.id = some "p1" ∧ w2msg.type = some "signal"
    ∧ ((rlAllow signalCfg 0 w2conn.rl).1 = false →
        handleMessage "R" 0 true (some w2msg) w2conn ({} : Server)
          = ({ w2conn with rl := (rlAllow signalCfg 0 w2conn.rl).2 }, ({} : Server),
              [Ev.warn ("Rate limit signal de " ++ "p1")])) :=
  ⟨rfl, rfl, (claim2_signal_checks "R" 0 true w2msg w2conn {} "p1" rfl rfl).1⟩

/-- C7: on transport close of a registered connection exactly the four
effects occur — the heartbeat generation stops, the player's registry
entry is removed, the id's transport binding is removed, and a final
broadcast reflects the removal — and no other player's registry entry
or transport binding is modified. -/
theorem claim7_close_effects (c : Conn) (s : Server) (myId : String)
    (hid : c.id = some myId) :
    handleClose c s
      = ({ c with pingOn := false },
          { registry := removeP s.registry myId, clients := clientsDel s.clients myId },
          Ev.info ("Desconectado: " ++ myId) ::
            broadcastPlayerUpdate (removeP s.registry myId) (clientsDel s.clients myId))
    ∧ findP (removeP s.registry myId) myId = none
    ∧ clientsGet (clientsDel s.clients myId) (some myId) = none
    ∧ (∀ j, j ≠ myId → findP (removeP s.registry myId) j = findP s.registry j)
    ∧ (∀ j, j ≠ myId →
        clientsGet (clientsDel s.clients myId) (some j) = clientsGet s.clients (some j)) :=
  ⟨by simp [handleClose, hid], findP_removeP_self _ _, clientsGet_del_self _ _,
    fun _ hj => findP_removeP_ne _ _ _ hj, fun _ hj => clientsGet_del_ne _ _ _ hj⟩

/-- Connection state used by the C7 witness. -/
def w7conn : Conn := { id := some "p1", pingOn := true }

/-- Server state used by the C7 witness. -/
def w7srv : Server :=
  { registry := [("p1", ⟨"p1", "none", VoiceMode.GLOBAL, false, ⟨0, 0, 0⟩⟩),
                 ("p2", ⟨"p2", "red", VoiceMode.TEAM, false, ⟨0, 0, 0⟩⟩)]
    clients := [("p1", true), ("p2", true)] }

/-- Witness for C7 at a concrete two-player server state. -/
theorem claim7_close_effects_witness :
    w7conn.id = some "p1"
    ∧ handleClose w7conn w7srv
        = ({ w7conn with pingOn := false },
            { registry := removeP w7srv.registry "p1"
              clients := clientsDel w7srv.clients "p1" },
            Ev.info ("Desconectado: " ++ "p1") ::
              broadcastPlayerUpdate (removeP w7srv.registry "p1")
                (clientsDel w7srv.clients "p1")) :=
  ⟨rfl, (claim7_close_effects w7conn w7srv "p1" rfl).1⟩

/-- C8: an unparseable frame is ignored in any connection state
(registered or not), and a parseable frame received while unregistered
that matches neither the web nor the game handshake shape is ignored:
no state transition, no registry mutation, no broadcast, and no reply
to the sender. -/
theorem claim8_ignore_unknown (roomId : String) (now : Nat) (selfOpen : Bool)
    (m : Msg) (c : Conn) (s : Server)
    (hweb : ¬(m.type = some "hello_web" ∧ truthyS m.clientId = true))
    (hbp : truthyS m.player = false) :
    handleMessage roomId now selfOpen none c s = (c, s, [])
    ∧ (c.id = none → handleMessage roomId now selfOpen (some m) c s = (c, s, [])) := by
  constructor
  · rfl
  · intro hid
    have hcond : ¬(c.id = none ∧ m.type = some "hello_web" ∧ truthyS m.clientId = true) := by
      rintro ⟨-, h1, h2⟩
      exact hweb ⟨h1, h2⟩
    simp [handleMessage, hid, hbp, hcond]
    intro h1
    cases hcl : truthyS m.clientId with
    | false => rfl
    | true => exact absurd ⟨h1, hcl⟩ hweb

/-- Frame used by the C8 witness: parseable, but neither handshake
shape nor (while unregistered) anything that is processed. -/
def w8msg : Msg := { type := some "bogus" }

/-- Registered connection used by the C8 witness, showing that a
malformed frame is ignored in the registered state too. -/
def w8conn : Conn := { id := some "p1", pingOn := true }

/-- Witness for C8: a registered connection ignores an unparseable
frame, and an unregistered one ignores the unrecognized parseable
frame. -/
theorem claim8_ignore_unknown_witness :
    (¬(w8msg.type = some "hello_web" ∧ truthyS w8msg.clientId = true)
      ∧ truthyS w8msg.player = false)
    ∧ handleMessage "R" 0 true none w8conn ({} : Server) = (w8conn, ({} : Server), [])
    ∧ (({} : Conn).id = none →
        handleMessage "R" 0 true (some w8msg) ({} : Conn) ({} : Server)
          = (({} : Conn), ({} : Server), [])) :=
  ⟨⟨by decide, rfl⟩,
    (claim8_ignore_unknown "R" 0 true w8msg w8conn {} (by decide) rfl).1,
    (claim8_ignore_unknown "R" 0 true w8msg {} {} (by decide) rfl).2⟩

/-- C9: each administrative POST endpoint answers 400 with an error
body and leaves the registry untouched when the id or its required
body field is missing (falsy), and otherwise applies the corresponding
registry mutation and answers 200. -/
theorem claim9_admin_endpoints (reg : Registry) (id : String) (v : Option String) :
    ((truthyS v = false ∨ id = "") →
      postName reg id v = (reg, 400, ApiResp.err "id y name requeridos")
      ∧ postTeam reg id v = (reg, 400, ApiResp.err "id y team requeridos")
      ∧ postMode reg id v = (reg, 400, ApiResp.err "id y mode requeridos"))
    ∧ (truthyS v = true → id ≠ "" →
      postName reg id v
          = (addOrUpdate reg id { name := some (jsSlice 24 (jsTrim (optStr v))) },
              200, ApiResp.ok)
      ∧ postTeam reg id v = (setTeam reg id (normalizeTeamColor v), 200, ApiResp.ok)
      ∧ postMode reg id v = (setVoiceMode reg id (optStr v), 200, ApiResp.ok)) := by
  refine ⟨fun h => ?_, fun ht hi => ?_⟩
  · have hcond : ¬ truthyS v = true ∨ id = "" := by
      rcases h with h | h
      · exact Or.inl (by simp [h])
      · exact Or.inr h
    refine ⟨?_, ?_, ?_⟩
    · unfold postName
      rw [if_pos hcond]
    · unfold postTeam
      rw [if_pos hcond]
    · unfold postMode
      rw [if_pos hcond]
  · have hcond : ¬ (¬ truthyS v = true ∨ id = "") := by
      rintro (hnt | hempty)
      · exact hnt ht
      · exact hi hempty
    refine ⟨?_, ?_, ?_⟩
    · unfold postName
      rw [if_neg hcond]
    · unfold postTeam
      rw [if_neg hcond]
    · unfold postMode
      rw [if_neg hcond]

/-- Witness for C9: a present id and body field reach the mutation and
the 200 answer. -/
theorem claim9_admin_endpoints_witness :
    (truthyS (some "red") = true ∧ ("p9" : String) ≠ "")
    ∧ (postName ([] : Registry) "p9" (some "red")
          = (addOrUpdate ([] : Registry) "p9"
              { name := some (jsSlice 24 (jsTrim (optStr (some "red")))) },
              200, ApiResp.ok)
        ∧ postTeam ([] : Registry) "p9" (some "red")
            = (setTeam ([] : Registry) "p9" (normalizeTeamColor (some "red")),
                200, ApiResp.ok)
        ∧ postMode ([] : Registry) "p9" (some "red")
            = (setVoiceMode ([] : Registry) "p9" (optStr (some "red")),
                200, ApiResp.ok)) :=
  ⟨⟨rfl, by decide⟩,
    (claim9_admin_endpoints ([] : Registry) "p9" (some "red")).2 rfl (by decide)⟩

/-- Registered connection used by the C4 counterexample. -/
def x4conn : Conn := { id := some "p1", pingOn := true }

/-- Server state used by the C4 counterexample: one registered player
with an open transport. -/
def x4srv : Server :=
  { registry := [("p1", ⟨"p1", "none", VoiceMode.GLOBAL, false, ⟨0, 0, 0⟩⟩)]
    clients := [("p1", true)] }

/-- Position frame used by the C4 counterexample. -/
def x4msg : Msg := { type := some "pos", pos := some (.posv ⟨1, 2, 3⟩) }

/-- Counterexample to C4 as stated: a `pos` frame changes the player's
stored state but the handler emits no event at all — in particular the
open transport receives no snapshot. -/
theorem claim4_broadcast_counterexample :
    (handleMessage "R" 0 true (some x4msg) x4conn x4srv).2.2 = []
    ∧ (handleMessage "R" 0 true (some x4msg) x4conn x4srv).2.1.registry ≠ x4srv.registry
    ∧ clientsGet x4srv.clients (some "p1") = some true := by
  decide

/-- C4 (amended): each state-changing message of type `state`, `mic`,
`set_name`, `teamv` or `team` broadcasts the full updated snapshot to
every currently-open transport before the handler returns, and a
transport that is not open is skipped silently; a `pos` message
mutates the stored position without emitting anything.  The final
conjunct characterizes the broadcast exactly: a send is produced for
an id iff that id's transport is open, and it always carries the full
snapshot. -/
theorem claim4_broadcast_amended (roomId : String) (now : Nat) (selfOpen : Bool)
    (m : Msg) (c : Conn) (s : Server) (myId : String)
    (hid : c.id = some myId) :
    (m.type = some "state" →
      handleMessage roomId now selfOpen (some m) c s
        = (c, applyVoiceState s myId (asBundle (jsOr m.data none)),
            broadcastPlayerUpdate
              (applyVoiceState s myId (asBundle (jsOr m.data none))).registry
              (applyVoiceState s myId (asBundle (jsOr m.data none))).clients))
    ∧ (m.type = some "mic" →
      handleMessage roomId now selfOpen (some m) c s
        = (c, { s with registry := setMuted s.registry myId (!truthyD m.state) },
            broadcastPlayerUpdate (setMuted s.registry myId (!truthyD m.state))
              s.clients))
    ∧ (∀ nm, m.type = some "set_name" → m.name = some (.str nm) →
      handleMessage roomId now selfOpen (some m) c s
        = (c,
            { s with registry := addOrUpdate s.registry myId { name := some (jsSlice 24 (jsTrim nm)) } },
            broadcastPlayerUpdate
              (addOrUpdate s.registry myId { name := some (jsSlice 24 (jsTrim nm)) })
              s.clients))
    ∧ (m.type = some "teamv" →
      handleMessage roomId now selfOpen (some m) c s
        = (c,
            { s with registry := setVoiceMode s.registry myId (if truthyD (nullish m.enabled m.data) then VoiceMode.TEAM else VoiceMode.GLOBAL) },
            (if c.isWebClient then [Ev.sendSelf (OutMsg.teamv (nullish m.enabled m.data))]
             else []) ++
              broadcastPlayerUpdate
                (setVoiceMode s.registry myId
                  (if truthyD (nullish m.enabled m.data) then VoiceMode.TEAM
                   else VoiceMode.GLOBAL))
                s.clients))
    ∧ (m.type = some "team" →
      handleMessage roomId now selfOpen (some m) c s
        = (c, { s with registry := setTeam s.registry myId (normalizeTeamColor m.color) },
            broadcastPlayerUpdate (setTeam s.registry myId (normalizeTeamColor m.color))
              s.clients))
    ∧ (m.type = some "pos" →
      handleMessage roomId now selfOpen (some m) c s
        = (c, { s with registry := setPlayerPos s.registry myId (asPos (jsOr m.pos m.data)) },
            []))
    ∧ (∀ reg cs i msg, Ev.send i msg ∈ broadcastPlayerUpdate reg cs ↔
        ((i, true) ∈ cs ∧ msg = OutMsg.players (getAll reg))) := by
  refine ⟨fun hty => ?_, fun hty => ?_, fun nm hty hnm => ?_, fun hty => ?_,
    fun hty => ?_, fun hty => ?_, fun reg cs i msg => mem_broadcastPlayerUpdate reg cs i msg⟩
  · simp [handleMessage, hid, hty]
  · simp [handleMessage, hid, hty]
  · simp [handleMessage, isStrD, asStr, hid, hty, hnm]
  · simp [handleMessage, hid, hty]
  · simp [handleMessage, hid, hty]
  · simp [handleMessage, hid, hty]

/-- Witness for C4 (amended): a concrete `mic` frame from a registered
connection broadcasts the mute change. -/
theorem claim4_broadcast_amended_witness :
    x4conn.id = some "p1"
    ∧ ((Msg.mk (some "mic") none none none (some (.bool false)) none none none
          none none none none).type = some "mic" →
        handleMessage "R" 0 true
            (some (Msg.mk (some "mic") none none none (some (.bool false)) none none
              none none none none none)) x4conn x4srv
          = (x4conn,
              { x4srv with registry := setMuted x4srv.registry "p1" (!truthyD (some (.bool false))) },
              broadcastPlayerUpdate
                (setMuted x4srv.registry "p1" (!truthyD (some (.bool false))))
                x4srv.clients)) :=
  ⟨rfl,
    (claim4_broadcast_amended "R" 0 true
      (Msg.mk (some "mic") none none none (some (.bool false)) none none none
        none none none none) x4conn x4srv "p1" rfl).2.1⟩

/-- Recognizer for sends on the connection's own socket, used to state
that the game handshake never sends the room identifier. -/
def isSendSelf : Ev → Bool
  | .sendSelf _ => true
  | _ => false

/-- Game handshake frame used by the C5 counterexample. -/
def x5msg : Msg := { player := some "Steve" }

/-- Counterexample to C5 as stated: a successful game (`player`)
handshake registers the player and broadcasts, but sends nothing to
the new connection (no room identifier) and does not start heartbeat
generation. -/
theorem claim5_handshake_counterexample :
    findP (handleMessage "R" 0 true (some x5msg) ({} : Conn) ({} : Server)).2.1.registry
        "mc:Steve"
      = some ⟨"Steve", "none", VoiceMode.GLOBAL, false, ⟨0, 0, 0⟩⟩
    ∧ (handleMessage "R" 0 true (some x5msg) ({} : Conn) ({} : Server)).1.pingOn = false
    ∧ ((handleMessage "R" 0 true (some x5msg) ({} : Conn) ({} : Server)).2.2.filter
        isSendSelf) = [] := by
  decide

/-- C5 (amended): a successful web handshake produces all five
effects — registry entry, transport binding, room message to the new
connection, global broadcast, heartbeat start; a successful game
handshake produces only the registry entry, the transport binding and
the broadcast: it sends no room identifier back and leaves heartbeat
generation off. -/
theorem claim5_handshake_effects (roomId : String) (now : Nat) (selfOpen : Bool)
    (m : Msg) (c : Conn) (s : Server) (hid : c.id = none) :
    (∀ cid, m.type = some "hello_web" → m.clientId = some cid → cid ≠ "" →
      handleMessage roomId now selfOpen (some m) c s
        = ({ c with id := some cid, isWebClient := true, pingOn := true },
            { registry := addOrUpdate s.registry cid (registerPatch cid none)
              clients := clientsSet s.clients cid selfOpen },
            Ev.sendSelf (OutMsg.room (some cid) roomId) ::
              broadcastPlayerUpdate (addOrUpdate s.registry cid (registerPatch cid none))
                  (clientsSet s.clients cid selfOpen)
                ++ [Ev.info ("Conectado web: " ++ cid)]))
    ∧ (∀ p, m.type = none → m.player = some p → p ≠ "" →
      handleMessage roomId now selfOpen (some m) c s
        = ({ c with id := some ("mc:" ++ p) },
            applyVoiceState
              { registry := addOrUpdate s.registry ("mc:" ++ p) (registerPatch ("mc:" ++ p) (some p))
                clients := clientsSet s.clients ("mc:" ++ p) selfOpen }
              ("mc:" ++ p) (asBundle (jsOr m.data m.state)),
            broadcastPlayerUpdate
                (applyVoiceState
                  { registry := addOrUpdate s.registry ("mc:" ++ p) (registerPatch ("mc:" ++ p) (some p))
                    clients := clientsSet s.clients ("mc:" ++ p) selfOpen }
                  ("mc:" ++ p) (asBundle (jsOr m.data m.state))).registry
                (applyVoiceState
                  { registry := addOrUpdate s.registry ("mc:" ++ p) (registerPatch ("mc:" ++ p) (some p))
                    clients := clientsSet s.clients ("mc:" ++ p) selfOpen }
                  ("mc:" ++ p) (asBundle (jsOr m.data m.state))).clients
              ++ [Ev.info ("Conectado BP: " ++ ("mc:" ++ p))])
      ∧ (handleMessage roomId now selfOpen (some m) c s).1.pingOn = c.pingOn) := by
  constructor
  · intro cid hty hcid hne
    have htr : truthyS (some cid) = true := by
      simp [truthyS, hne]
    simp [handleMessage, registerClient, hid, hty, hcid, htr, optStr]
  · intro p hty hp hne
    have htr : truthyS (some p) = true := by
      simp [truthyS, hne]
    constructor
    · simp [handleMessage, registerClient, hid, hty, hp, htr, optStr]
    · simp [handleMessage, registerClient, hid, hty, hp, htr, optStr]

/-- Web handshake frame used by the C5 witness. -/
def w5msg : Msg := { type := some "hello_web", clientId := some "webA" }

/-- Witness for C5 (amended) at a concrete web handshake. -/
theorem claim5_handshake_effects_witness :
    (({} : Conn).id = none ∧ w5msg.type = some "hello_web"
      ∧ w5msg.clientId = some "webA" ∧ ("webA" : String) ≠ "")
    ∧ handleMessage "R" 7 true (some w5msg) ({} : Conn) ({} : Server)
        = ({ ({} : Conn) with id := some "webA", isWebClient := true, pingOn := true },
            { registry := addOrUpdate ([] : Registry) "webA" (registerPatch "webA" none)
              clients := clientsSet ([] : Clients) "webA" true },
            Ev.sendSelf (OutMsg.room (some "webA") "R") ::
              broadcastPlayerUpdate (addOrUpdate ([] : Registry) "webA" (registerPatch "webA" none))
                  (clientsSet ([] : Clients) "webA" true)
                ++ [Ev.info ("Conectado web: " ++ "webA")]) :=
  ⟨⟨rfl, rfl, rfl, by decide⟩,
    (claim5_handshake_effects "R" 7 true w5msg {} {} rfl).1 "webA" rfl rfl (by decide)⟩

/-- 29-character client id used by the C6 counterexample. -/
def x6cid : String := "A0123456789012345678901234567"

/-- Web handshake frame used by the C6 counterexample. -/
def x6msg : Msg := { type := some "hello_web", clientId := some x6cid }

/-- Counterexample to C6 as stated: handshake-time registration stores
the raw identifier as the player name — a 29-character clientId is
stored neither trimmed nor truncated to 24 characters. -/
theorem claim6_name_counterexample :
    findP (handleMessage "R" 0 true (some x6msg) ({} : Conn) ({} : Server)).2.1.registry
        x6cid
      = some ⟨x6cid, "none", VoiceMode.GLOBAL, false, ⟨0, 0, 0⟩⟩
    ∧ 24 < x6cid.length := by
  decide

/-- C6 (amended): the `set_name` message and the
`POST /players/{id}/name` endpoint trim the incoming name and truncate
it to 24 characters before storage; handshake-time registration
instead stores the raw client identifier (web) or the raw player name
(game) unmodified. -/
theorem claim6_name_trimming (roomId : String) (now : Nat) (selfOpen : Bool)
    (m : Msg) (c : Conn) (s : Server) :
    (∀ myId nm, c.id = some myId → m.type = some "set_name" → m.name = some (.str nm) →
      findP (handleMessage roomId now selfOpen (some m) c s).2.1.registry myId
        = some (applyPatch ((findP s.registry myId).getD defaultPlayer)
            { name := some (jsSlice 24 (jsTrim nm)) }))
    ∧ (∀ reg id v, truthyS v = true → id ≠ "" →
      findP (postName reg id v).1 id
        = some (applyPatch ((findP reg id).getD defaultPlayer)
            { name := some (jsSlice 24 (jsTrim (optStr v))) }))
    ∧ (∀ cid, c.id = none → m.type = some "hello_web" → m.clientId = some cid → cid ≠ "" →
      findP (handleMessage roomId now selfOpen (some m) c s).2.1.registry cid
        = some ⟨cid, "none", VoiceMode.GLOBAL, false, ⟨0, 0, 0⟩⟩)
    ∧ (∀ p, c.id = none → m.type = none → m.player = some p → p ≠ "" →
       m.data = none → m.state = none →
      findP (handleMessage roomId now selfOpen (some m) c s).2.1.registry ("mc:" ++ p)
        = some ⟨p, "none", VoiceMode.GLOBAL, false, ⟨0, 0, 0⟩⟩) := by
  refine ⟨fun myId nm hid hty hnm => ?_, fun reg id v htr hi => ?_,
    fun cid hid hty hcid hne => ?_, fun p hid hty hp hne hdata hstate => ?_⟩
  · simp [handleMessage, hid, hty, hnm, isStrD, asStr, addOrUpdate, findP_setP_self]
  · have hcond : ¬ (¬ truthyS v = true ∨ id = "") := by
      rintro (hnt | hempty)
      · exact hnt htr
      · exact hi hempty
    unfold postName
    rw [if_neg hcond]
    simp [addOrUpdate, findP_setP_self]
  · have htr2 : truthyS (some cid) = true := by
      simp [truthyS, hne]
    simp [handleMessage, registerClient, hid, hty, hcid, htr2, optStr,
      addOrUpdate, findP_setP_self, registerPatch, applyPatch]
  · have htr2 : truthyS (some p) = true := by
      simp [truthyS, hne]
    have hmode : ¬("" = VoiceMode.GLOBAL ∨ "" = VoiceMode.TEAM) := by decide
    simp [handleMessage, registerClient, applyVoiceState, modeFromState, asBundle,
      jsOr, truthyD, setVoiceMode, hid, hty, hp, htr2, hdata, hstate, optStr,
      addOrUpdate, findP_setP_self, registerPatch, applyPatch, hmode]

/-- Frame used by the C6 (amended) witness. -/
def w6msg : Msg := { type := some "set_name", name := some (.str "  Steven The Brave Warrior King III  ") }

/-- Registered connection and server used by the C6 (amended) witness. -/
def w6conn : Conn := { id := some "p1" }

/-- Server used by the C6 (amended) witness. -/
def w6srv : Server :=
  { registry := [("p1", ⟨"p1", "none", VoiceMode.GLOBAL, false, ⟨0, 0, 0⟩⟩)]
    clients := [("p1", true)] }

/-- Witness for C6 (amended): a `set_name` frame stores the trimmed,
24-character-truncated name. -/
theorem claim6_name_trimming_witness :
    (w6conn.id = some "p1" ∧ w6msg.type = some "set_name"
      ∧ w6msg.name = some (.str "  Steven The Brave Warrior King III  "))
    ∧ findP (handleMessage "R" 0 true (some w6msg) w6conn w6srv).2.1.registry "p1"
        = some (applyPatch ((findP w6srv.registry "p1").getD defaultPlayer)
            { name := some (jsSlice 24 (jsTrim "  Steven The Brave Warrior King III  ")) }) :=
  ⟨⟨rfl, rfl, rfl⟩,
    (claim6_name_trimming "R" 0 true w6msg w6conn w6srv).1 "p1"
      "  Steven The Brave Warrior King III  " rfl rfl rfl⟩

/-- Game handshake frame also carrying a typed `signal` command, used
for C10. -/
def x10msg : Msg :=
  { player := some "A"
    type := some "signal"
    toId := some "B"
    action := some "offer"
    payload := some (.str "sdp") }

/-- Server state used for C10: the target `B` is registered with an
open transport. -/
def x10srv : Server :=
  { registry := [("B", ⟨"B", "none", VoiceMode.GLOBAL, false, ⟨0, 0, 0⟩⟩)]
    clients := [("B", true)] }

/-- C10: a single game-handshake frame that also carries a recognized
`type` (here `"signal"`) is processed both as a handshake and as that
typed command in the same dispatch: the connection ends the dispatch
registered as `mc:A` with its registry entry created, and the very
same dispatch already forwarded the signal envelope to `B` — because
the game-handshake branch, unlike the web one, does not return. -/
theorem claim10_bp_fallthrough :
    (handleMessage "R" 0 true (some x10msg) ({} : Conn) x10srv).1.id = some "mc:A"
    ∧ findP (handleMessage "R" 0 true (some x10msg) ({} : Conn) x10srv).2.1.registry
        "mc:A"
      = some ⟨"A", "none", VoiceMode.GLOBAL, false, ⟨0, 0, 0⟩⟩
    ∧ Ev.send "B" (OutMsg.signal "mc:A" (some "offer") (some (.str "sdp")))
        ∈ (handleMessage "R" 0 true (some x10msg) ({} : Conn) x10srv).2.2 := by
  decide

end SubVoice
